import Mathlib

/-!
Verification development for the GeoGebra `.ggb` file builder (src/main.py).

The program builds an in-memory XML tree (GUI section, euclidian view,
kernel settings, and a construction list of geometric elements, commands
and expressions), serializes it to XML and packages the XML inside a ZIP
archive under the entry name `geogebra.xml`.

Shallow embedding: the XML tree is an inductive of tagged nodes with an
ordered attribute list and ordered children; the mutable `GeoGebra` Python
object is a Lean structure threaded through the builder operations; the
filesystem touched by `save` is an explicit association list from paths to
ZIP archives; the random UUID drawn in `__init__` is an explicit parameter
supplied by the instantiation site.
-/

/-- An XML node: tag, ordered attribute list, ordered children.
Mirrors `xml.etree.ElementTree.Element`. -/
inductive XML where
  | elem (tag : String) (attrs : List (String × String)) (children : List XML)

def XML.tag : XML → String
  | XML.elem t _ _ => t

def XML.attrs : XML → List (String × String)
  | XML.elem _ a _ => a

def XML.children : XML → List XML
  | XML.elem _ _ c => c

/-- Append extra children to a node (models `ET.SubElement` calls made on an
already-created element). -/
def XML.withMoreChildren : XML → List XML → XML
  | XML.elem t a c, extra => XML.elem t a (c ++ extra)

/-- Value of attribute `k` on node `x`, if present. -/
def attrVal (x : XML) (k : String) : Option String :=
  (x.attrs.find? (fun p => p.1 == k)).map Prod.snd

/-- First child of `x` carrying tag `t`, if any. -/
def childTagged (x : XML) (t : String) : Option XML :=
  x.children.find? (fun c => c.tag == t)

/-- Whether `x` has a child with tag `t`. -/
def hasChildTagged (x : XML) (t : String) : Bool :=
  (childTagged x t).isSome

/-- The (x, y, z) attribute triple of the `coords` child of an element entry. -/
def coordsOf (x : XML) : Option (String × String × String) :=
  match childTagged x "coords" with
  | some c =>
    match attrVal c "x", attrVal c "y", attrVal c "z" with
    | some a, some b, some d => some (a, b, d)
    | _, _, _ => none
  | none => none

/-- RGB color triple, as passed to the Python builders. -/
def Color := Nat × Nat × Nat

/-- The `<gui>` skeleton produced by `GeoGebra._add_gui`. -/
def defaultGui : XML :=
  XML.elem "gui" []
    [ XML.elem "window" [("width", "1280"), ("height", "800")] [],
      XML.elem "perspectives" []
        [ XML.elem "perspective" [("id", "graphing")]
            [ XML.elem "panes" []
                [ XML.elem "pane"
                    [("location", ""), ("divider", "0.25"), ("orientation", "1")] [] ],
              XML.elem "views" []
                [ XML.elem "view"
                    [("id", "1"), ("visible", "true"), ("inframe", "false"),
                     ("stylebar", "false"), ("location", "1"), ("size", "950"),
                     ("window", "100,100,600,400")] [],
                  XML.elem "view"
                    [("id", "2"), ("visible", "true"), ("inframe", "false"),
                     ("stylebar", "false"), ("location", "3"), ("size", "300"),
                     ("tab", "ALGEBRA"), ("window", "100,100,600,400")] [] ] ] ],
      XML.elem "labelingStyle" [("val", "1")] [],
      XML.elem "font" [("size", "16")] [] ]

/-- The `<euclidianView>` skeleton produced by `GeoGebra._add_euclidian_view`. -/
def defaultEuclidianView : XML :=
  XML.elem "euclidianView" []
    [ XML.elem "viewNumber" [("viewNo", "1")] [],
      XML.elem "size" [("width", "880"), ("height", "606")] [],
      XML.elem "coordSystem"
        [("xZero", "440"), ("yZero", "303"), ("scale", "50"), ("yscale", "50")] [],
      XML.elem "evSettings"
        [("axes", "true"), ("grid", "true"), ("gridIsBold", "false"),
         ("pointCapturing", "3"), ("rightAngleStyle", "1"),
         ("checkboxSize", "26"), ("gridType", "3")] [],
      XML.elem "bgColor" [("r", "255"), ("g", "255"), ("b", "255")] [],
      XML.elem "axesColor" [("r", "0"), ("g", "0"), ("b", "0")] [],
      XML.elem "gridColor" [("r", "192"), ("g", "192"), ("b", "192")] [] ]

/-- The `<kernel>` skeleton produced by `GeoGebra._add_kernel`. -/
def defaultKernel : XML :=
  XML.elem "kernel" []
    [ XML.elem "continuous" [("val", "false")] [],
      XML.elem "usePathAndRegionParameters" [("val", "true")] [],
      XML.elem "decimals" [("val", "2")] [],
      XML.elem "angleUnit" [("val", "degree")] [],
      XML.elem "algebraStyle" [("val", "3")] [],
      XML.elem "coordStyle" [("val", "0")] [] ]

/-- Root attributes set in `GeoGebra.__init__`; `id` is the string of the
freshly drawn UUID, here an explicit parameter. -/
def rootAttribsOf (app subApp uuidStr : String) : List (String × String) :=
  [ ("format", "5.0"),
    ("version", "5.2.892.0"),
    ("app", app),
    ("subApp", subApp),
    ("platform", "w"),
    ("id", uuidStr),
    ("xsi:noNamespaceSchemaLocation", "http://www.geogebra.org/apps/xsd/ggb.xsd"),
    ("xmlns", ""),
    ("xmlns:xsi", "http://www.w3.org/2001/XMLSchema-instance") ]

/-- The `GeoGebra` document object: root attributes plus the four
sections; only `construction` is ever mutated after `__init__`. -/
structure GeoGebra where
  rootAttribs : List (String × String)
  gui : XML
  euclidianView : XML
  kernel : XML
  construction : List XML

/-- `GeoGebra.__init__`: `uuidStr` stands for `str(uuid.uuid4())`. -/
def GeoGebra.init (app subApp uuidStr : String) : GeoGebra :=
  { rootAttribs := rootAttribsOf app subApp uuidStr,
    gui := defaultGui,
    euclidianView := defaultEuclidianView,
    kernel := defaultKernel,
    construction := [] }

/-- `GeoGebra._create_element_base`. -/
def createElementBase (elType label : String) (color : Color)
    (layer : Nat) (visible labelVisible : Bool) : XML :=
  XML.elem "element" [("type", elType), ("label", label)]
    [ XML.elem "show"
        [("object", toString visible), ("label", toString labelVisible)] [],
      XML.elem "objColor"
        [("r", toString color.1), ("g", toString color.2.1),
         ("b", toString color.2.2), ("alpha", "0")] [],
      XML.elem "layer" [("val", toString layer)] [],
      XML.elem "labelMode" [("val", "0")] [] ]

/-- The element entry appended by `add_point`. -/
def pointEntry (label : String) (x y : Int) (size : Nat) (color : Color) : XML :=
  (createElementBase "point" label color 0 true true).withMoreChildren
    [ XML.elem "pointSize" [("val", toString size)] [],
      XML.elem "pointStyle" [("val", "0")] [],
      XML.elem "coords" [("x", toString x), ("y", toString y), ("z", "1.0")] [] ]

/-- `GeoGebra.add_point`. -/
def GeoGebra.add_point (g : GeoGebra) (label : String) (x y : Int)
    (size : Nat) (color : Color) : GeoGebra :=
  { g with construction := g.construction ++ [pointEntry label x y size color] }

/-- The cosmetic expression string built by `add_line_by_coeffs`:
`f"{a}x + {b}y + {c} = 0"`. -/
def lineExpString (a b c : Int) : String :=
  toString a ++ "x + " ++ toString b ++ "y + " ++ toString c ++ " = 0"

/-- The expression entry appended first by `add_line_by_coeffs`. -/
def lineExpressionEntry (label : String) (a b c : Int) : XML :=
  XML.elem "expression"
    [("label", label), ("exp", lineExpString a b c), ("type", "line")] []

/-- The element entry appended second by `add_line_by_coeffs`. -/
def lineElementEntry (label : String) (a b c : Int) (color : Color) : XML :=
  (createElementBase "line" label color 0 true true).withMoreChildren
    [ XML.elem "fixed" [("val", "false")] [],
      XML.elem "lineStyle" [("thickness", "5"), ("type", "0")] [],
      XML.elem "coords" [("x", toString a), ("y", toString b), ("z", toString c)] [] ]

/-- `GeoGebra.add_line_by_coeffs`. -/
def GeoGebra.add_line_by_coeffs (g : GeoGebra) (label : String) (a b c : Int)
    (color : Color) : GeoGebra :=
  { g with construction :=
      g.construction ++ [lineExpressionEntry label a b c, lineElementEntry label a b c color] }

/-- The command entry appended first by `add_segment`. -/
def segmentCommandEntry (label point1Label point2Label : String) : XML :=
  XML.elem "command" [("name", "Segment")]
    [ XML.elem "input" [("a0", point1Label), ("a1", point2Label)] [],
      XML.elem "output" [("a0", label)] [] ]

/-- The dependent element entry appended second by `add_segment`. -/
def segmentElementEntry (label : String) (color : Color) : XML :=
  (createElementBase "segment" label color 0 true true).withMoreChildren
    [ XML.elem "lineStyle" [("thickness", "5")] [] ]

/-- `GeoGebra.add_segment`. -/
def GeoGebra.add_segment (g : GeoGebra) (label point1Label point2Label : String)
    (color : Color) : GeoGebra :=
  { g with construction :=
      g.construction ++ [segmentCommandEntry label point1Label point2Label,
                         segmentElementEntry label color] }

/-- The command entry appended first by `add_orthogonal_line`. -/
def orthoCommandEntry (label pointLabel lineLabel : String) : XML :=
  XML.elem "command" [("name", "OrthogonalLine")]
    [ XML.elem "input" [("a0", pointLabel), ("a1", lineLabel)] [],
      XML.elem "output" [("a0", label)] [] ]

/-- The dependent element entry appended second by `add_orthogonal_line`. -/
def orthoElementEntry (label : String) (color : Color) : XML :=
  (createElementBase "line" label color 0 true true).withMoreChildren
    [ XML.elem "lineStyle" [("thickness", "5")] [] ]

/-- `GeoGebra.add_orthogonal_line`. -/
def GeoGebra.add_orthogonal_line (g : GeoGebra) (label pointLabel lineLabel : String)
    (color : Color) : GeoGebra :=
  { g with construction :=
      g.construction ++ [orthoCommandEntry label pointLabel lineLabel,
                         orthoElementEntry label color] }

/-- The full document tree as serialized: root `geogebra` node with the four
sections, the construction node holding the construction list. -/
def exportTree (g : GeoGebra) : XML :=
  XML.elem "geogebra" g.rootAttribs
    [g.gui, g.euclidianView, g.kernel, XML.elem "construction" [] g.construction]

/-- A single quote character, written by code point to keep it out of the text. -/
def singleQuote : String := String.singleton (Char.ofNat 39)

/-- A double quote character. -/
def doubleQuote : String := String.singleton (Char.ofNat 34)

/-- Render an attribute list as ` k="v" ...`, in insertion order, as
`ElementTree` emits it. -/
def renderAttrList : List (String × String) → String
  | [] => ""
  | (k, v) :: rest => " " ++ k ++ "=" ++ doubleQuote ++ v ++ doubleQuote ++ renderAttrList rest

mutual

/-- Serialize one node, short form `<t a />` for childless nodes as
`ET.tostring` does by default. -/
def renderXML : XML → String
  | XML.elem tag attrs children =>
    match children with
    | [] => "<" ++ tag ++ renderAttrList attrs ++ " />"
    | _ => "<" ++ tag ++ renderAttrList attrs ++ ">"
             ++ renderChildren children ++ "</" ++ tag ++ ">"

/-- Serialize a child list in order. -/
def renderChildren : List XML → String
  | [] => ""
  | c :: cs => renderXML c ++ renderChildren cs

end

/-- The XML declaration emitted by `ET.tostring(..., xml_declaration=True)`. -/
def xmlDecl : String :=
  "<?xml version=" ++ singleQuote ++ "1.0" ++ singleQuote
    ++ " encoding=" ++ singleQuote ++ "utf-8" ++ singleQuote ++ "?>\n"

/-- `xml_string` in `save`: the full serialized document. -/
def serialize (g : GeoGebra) : String :=
  xmlDecl ++ renderXML (exportTree g)

/-- One entry of a ZIP archive: name and (decoded UTF-8) content. -/
structure ZipEntry where
  name : String
  content : String

/-- A ZIP archive as its ordered list of entries. -/
structure ZipArchive where
  entries : List ZipEntry

/-- The filesystem visible to `save`: paths mapped to ZIP archives, most
recent write first. -/
def FileSystem := List (String × ZipArchive)

/-- `zipfile.ZipFile(filename, "w")` followed by writes: a fresh archive
replaces whatever was at the path. -/
def writeFS (fs : FileSystem) (path : String) (z : ZipArchive) : FileSystem :=
  (path, z) :: fs

/-- Read the archive currently at a path. -/
def readFS (fs : FileSystem) (path : String) : Option ZipArchive :=
  (List.find? (fun p => p.1 == path) fs).map Prod.snd

/-- Semantics of the Python `str.endswith` call in `save`: a case-sensitive
exact suffix match on the character sequence. -/
def pyEndsWith (s suffixStr : String) : Bool :=
  List.isSuffixOf suffixStr.data s.data

/-- The filename actually used on disk: `.ggb` appended when absent. -/
def resolveFilename (filename : String) : String :=
  if pyEndsWith filename ".ggb" then filename else filename ++ ".ggb"

/-- `GeoGebra.save`: resolves the filename, serializes the tree, writes a
one-entry ZIP archive named `geogebra.xml` at the resolved path. -/
def GeoGebra.save (g : GeoGebra) (fs : FileSystem) (filename : String) : FileSystem :=
  writeFS fs (resolveFilename filename)
    (ZipArchive.mk [ZipEntry.mk "geogebra.xml" (serialize g)])

/-- The `id` root attribute of a document. -/
def idOf (g : GeoGebra) : Option String :=
  (g.rootAttribs.find? (fun p => p.1 == "id")).map Prod.snd

/-- One builder call with all of its arguments (defaults made explicit). -/
inductive BuilderCall where
  | point (label : String) (x y : Int) (size : Nat) (color : Color)
  | lineByCoeffs (label : String) (a b c : Int) (color : Color)
  | segment (label point1Label point2Label : String) (color : Color)
  | orthogonalLine (label pointLabel lineLabel : String) (color : Color)

/-- Dispatch one builder call on a document. -/
def applyCall (g : GeoGebra) : BuilderCall → GeoGebra
  | BuilderCall.point label x y size color => g.add_point label x y size color
  | BuilderCall.lineByCoeffs label a b c color => g.add_line_by_coeffs label a b c color
  | BuilderCall.segment label p1 p2 color => g.add_segment label p1 p2 color
  | BuilderCall.orthogonalLine label p l color => g.add_orthogonal_line label p l color

/-- Run a sequence of builder calls left to right. -/
def runCalls (g : GeoGebra) : List BuilderCall → GeoGebra
  | [] => g
  | c :: cs => runCalls (applyCall g c) cs

/-- The construction-list entries one call appends (independent of the
document state: builders are pure appends). -/
def entriesOf : BuilderCall → List XML
  | BuilderCall.point label x y size color => [pointEntry label x y size color]
  | BuilderCall.lineByCoeffs label a b c color =>
      [lineExpressionEntry label a b c, lineElementEntry label a b c color]
  | BuilderCall.segment label p1 p2 color =>
      [segmentCommandEntry label p1 p2, segmentElementEntry label color]
  | BuilderCall.orthogonalLine label p l color =>
      [orthoCommandEntry label p l, orthoElementEntry label color]

/-- Number of construction entries one call contributes, as the spec counts
them: point 1; line by coefficients 2; segment 2; orthogonal line 2. -/
def entryCount : BuilderCall → Nat
  | BuilderCall.point _ _ _ _ _ => 1
  | BuilderCall.lineByCoeffs _ _ _ _ _ => 2
  | BuilderCall.segment _ _ _ _ => 2
  | BuilderCall.orthogonalLine _ _ _ _ => 2

/-- Entries appended by a whole call sequence, in order. -/
def entriesOfCalls : List BuilderCall → List XML
  | [] => []
  | c :: cs => entriesOf c ++ entriesOfCalls cs

/-- The `__main__` script of src/main.py, with the defaults it relies on
spelled out (point size 5; default point color (21, 101, 192)). -/
def mainScenario (uuidStr : String) : GeoGebra :=
  ((((((GeoGebra.init "suite" "graphing" uuidStr).add_line_by_coeffs
      "f" 0 1 (-2) (0, 103, 88)).add_point
      "A" (-3) 4 5 (21, 101, 192)).add_orthogonal_line
      "g" "A" "f" (0, 0, 0)).add_point
      "P" 5 5 5 (21, 101, 192)).add_point
      "Q" 8 1 5 (21, 101, 192)).add_segment
      "seg1" "P" "Q" (255, 87, 34)

/-! ### Helper lemmas -/

theorem applyCall_construction (g : GeoGebra) (c : BuilderCall) :
    (applyCall g c).construction = g.construction ++ entriesOf c := by
  cases c <;> rfl

theorem applyCall_gui (g : GeoGebra) (c : BuilderCall) :
    (applyCall g c).gui = g.gui := by
  cases c <;> rfl

theorem applyCall_euclidianView (g : GeoGebra) (c : BuilderCall) :
    (applyCall g c).euclidianView = g.euclidianView := by
  cases c <;> rfl

theorem applyCall_kernel (g : GeoGebra) (c : BuilderCall) :
    (applyCall g c).kernel = g.kernel := by
  cases c <;> rfl

theorem applyCall_rootAttribs (g : GeoGebra) (c : BuilderCall) :
    (applyCall g c).rootAttribs = g.rootAttribs := by
  cases c <;> rfl

theorem runCalls_construction (cs : List BuilderCall) :
    ∀ g : GeoGebra, (runCalls g cs).construction = g.construction ++ entriesOfCalls cs := by
  induction cs with
  | nil => intro g; simp [runCalls, entriesOfCalls]
  | cons c cs ih =>
    intro g
    simp [runCalls, entriesOfCalls, ih, applyCall_construction, List.append_assoc]

theorem runCalls_rootAttribs (cs : List BuilderCall) :
    ∀ g : GeoGebra, (runCalls g cs).rootAttribs = g.rootAttribs := by
  induction cs with
  | nil => intro g; rfl
  | cons c cs ih => intro g; simp [runCalls, ih, applyCall_rootAttribs]

theorem entriesOf_length (c : BuilderCall) : (entriesOf c).length = entryCount c := by
  cases c <;> rfl

theorem entriesOfCalls_length (cs : List BuilderCall) :
    (entriesOfCalls cs).length = (cs.map entryCount).sum := by
  induction cs with
  | nil => rfl
  | cons c cs ih => simp [entriesOfCalls, entriesOf_length, ih]

theorem idOf_runCalls_init (app subApp uuidStr : String) (cs : List BuilderCall) :
    idOf (runCalls (GeoGebra.init app subApp uuidStr) cs) = some uuidStr := by
  unfold idOf
  rw [runCalls_rootAttribs]
  rfl

/-! ### Claim theorems -/

/-- Claim C1: for every label and pair of point labels, `add_segment` appends
a command entry named "Segment" with input labels [p1, p2] and output label
[label], immediately followed by one element entry of kind segment for that
label, and that element entry contains no input declaration. -/
theorem C1_add_segment_command_then_element (g : GeoGebra)
    (label point1Label point2Label : String) (color : Color) :
    (g.add_segment label point1Label point2Label color).construction
        = g.construction ++ [segmentCommandEntry label point1Label point2Label,
                             segmentElementEntry label color]
      ∧ (segmentCommandEntry label point1Label point2Label).tag = "command"
      ∧ attrVal (segmentCommandEntry label point1Label point2Label) "name" = some "Segment"
      ∧ childTagged (segmentCommandEntry label point1Label point2Label) "input"
          = some (XML.elem "input" [("a0", point1Label), ("a1", point2Label)] [])
      ∧ childTagged (segmentCommandEntry label point1Label point2Label) "output"
          = some (XML.elem "output" [("a0", label)] [])
      ∧ (segmentElementEntry label color).tag = "element"
      ∧ attrVal (segmentElementEntry label color) "type" = some "segment"
      ∧ attrVal (segmentElementEntry label color) "label" = some label
      ∧ hasChildTagged (segmentElementEntry label color) "input" = false :=
  ⟨rfl, rfl, rfl, rfl, rfl, rfl, rfl, rfl, rfl⟩

/-- Claim C2: for all coefficients A, B, C, `add_line_by_coeffs` appends an
expression entry rendering the literal string "Ax + By + C = 0" with the
supplied values substituted, immediately followed by one element entry of
kind line whose coordinate triple is (A, B, C). -/
theorem C2_add_line_by_coeffs_expression_then_element (g : GeoGebra)
    (label : String) (a b c : Int) (color : Color) :
    (g.add_line_by_coeffs label a b c color).construction
        = g.construction ++ [lineExpressionEntry label a b c,
                             lineElementEntry label a b c color]
      ∧ (lineExpressionEntry label a b c).tag = "expression"
      ∧ attrVal (lineExpressionEntry label a b c) "exp"
          = some (toString a ++ "x + " ++ toString b ++ "y + " ++ toString c ++ " = 0")
      ∧ attrVal (lineExpressionEntry label a b c) "label" = some label
      ∧ (lineElementEntry label a b c color).tag = "element"
      ∧ attrVal (lineElementEntry label a b c color) "type" = some "line"
      ∧ attrVal (lineElementEntry label a b c color) "label" = some label
      ∧ coordsOf (lineElementEntry label a b c color)
          = some (toString a, toString b, toString c) :=
  ⟨rfl, rfl, rfl, rfl, rfl, rfl, rfl, rfl⟩

/-- Claim C3: for all (label, x, y) inputs, `add_point` appends exactly one
element entry of kind point whose coordinate triple is (x, y, 1.0), and the
exported tree carries exactly that entry in its construction section. -/
theorem C3_add_point_coords (g : GeoGebra) (label : String) (x y : Int)
    (size : Nat) (color : Color) :
    (g.add_point label x y size color).construction
        = g.construction ++ [pointEntry label x y size color]
      ∧ (pointEntry label x y size color).tag = "element"
      ∧ attrVal (pointEntry label x y size color) "type" = some "point"
      ∧ attrVal (pointEntry label x y size color) "label" = some label
      ∧ coordsOf (pointEntry label x y size color)
          = some (toString x, toString y, "1.0")
      ∧ exportTree (g.add_point label x y size color)
          = XML.elem "geogebra" g.rootAttribs
              [g.gui, g.euclidianView, g.kernel,
               XML.elem "construction" []
                 (g.construction ++ [pointEntry label x y size color])] :=
  ⟨rfl, rfl, rfl, rfl, rfl, rfl⟩

/-- Claim C4: on a fresh document, the construction list's entry count after
any sequence of builder calls is the sum of the per-call contributions:
segment 2, orthogonal line 2, line by coefficients 2, free point 1. -/
theorem C4_construction_length (app subApp uuidStr : String)
    (calls : List BuilderCall) :
    ((runCalls (GeoGebra.init app subApp uuidStr) calls).construction).length
      = (calls.map entryCount).sum := by
  rw [runCalls_construction]
  exact entriesOfCalls_length calls

/-- Claim C5 counterexample: the construction list of the main-script
scenario has 9 entries, not the claimed "exactly 7". -/
theorem C5_counterexample :
    ((mainScenario "u").construction).length = 9
      ∧ ¬ ((mainScenario "u").construction).length = 7 := by
  exact ⟨by decide, by decide⟩

/-- Claim C5 (amended): the main-script scenario yields a construction list
of exactly 9 entries, in the order [expression(f), element(f), element(A),
command(OrthogonalLine for g), element(g), element(P), element(Q),
command(Segment for seg1), element(seg1)]. -/
theorem C5_main_scenario_entries (uuidStr : String) :
    (mainScenario uuidStr).construction
        = [ lineExpressionEntry "f" 0 1 (-2),
            lineElementEntry "f" 0 1 (-2) (0, 103, 88),
            pointEntry "A" (-3) 4 5 (21, 101, 192),
            orthoCommandEntry "g" "A" "f",
            orthoElementEntry "g" (0, 0, 0),
            pointEntry "P" 5 5 5 (21, 101, 192),
            pointEntry "Q" 8 1 5 (21, 101, 192),
            segmentCommandEntry "seg1" "P" "Q",
            segmentElementEntry "seg1" (255, 87, 34) ]
      ∧ ((mainScenario uuidStr).construction).map XML.tag
          = ["expression", "element", "element", "command", "element",
             "element", "element", "command", "element"]
      ∧ ((mainScenario uuidStr).construction).length = 9 :=
  ⟨rfl, rfl, rfl⟩

/-- Claim C6: after initialization the root has exactly the four sections
gui, euclidianView, kernel, construction, and every builder call leaves the
gui, view and kernel subtrees (and the root attributes) unchanged, only
appending its entries to the construction list. -/
theorem C6_four_sections_and_preservation (app subApp uuidStr : String)
    (g : GeoGebra) (c : BuilderCall) :
    ((exportTree (GeoGebra.init app subApp uuidStr)).children).map XML.tag
        = ["gui", "euclidianView", "kernel", "construction"]
      ∧ ((exportTree g).children).length = 4
      ∧ (GeoGebra.init app subApp uuidStr).construction = []
      ∧ (applyCall g c).gui = g.gui
      ∧ (applyCall g c).euclidianView = g.euclidianView
      ∧ (applyCall g c).kernel = g.kernel
      ∧ (applyCall g c).rootAttribs = g.rootAttribs
      ∧ (applyCall g c).construction = g.construction ++ entriesOf c :=
  ⟨rfl, rfl, rfl, applyCall_gui g c, applyCall_euclidianView g c,
   applyCall_kernel g c, applyCall_rootAttribs g c, applyCall_construction g c⟩

/-- Claim C7: a filename lacking the `.ggb` suffix gets it appended; one
already carrying it is used unchanged. -/
theorem C7_save_extension (filename : String) :
    (pyEndsWith filename ".ggb" = false →
        resolveFilename filename = filename ++ ".ggb")
      ∧ (pyEndsWith filename ".ggb" = true →
        resolveFilename filename = filename) := by
  constructor <;> intro h <;> simp [resolveFilename, h]

/-- Witness for C7 at the filenames "figure" and "figure.ggb". -/
theorem C7_save_extension_witness :
    resolveFilename "figure" = "figure.ggb"
      ∧ resolveFilename "figure.ggb" = "figure.ggb" :=
  ⟨(C7_save_extension "figure").1 (by decide),
   (C7_save_extension "figure.ggb").2 (by decide)⟩

/-- Claim C8: `save` places at the resolved path a ZIP archive with exactly
one entry, named geogebra.xml, whose content is the serialization of the
document tree prefixed by the XML declaration, regardless of what the
filesystem held at that path before. -/
theorem C8_save_single_zip_entry (fs : FileSystem) (g : GeoGebra)
    (filename : String) :
    readFS (g.save fs filename) (resolveFilename filename)
        = some (ZipArchive.mk [ZipEntry.mk "geogebra.xml" (serialize g)])
      ∧ serialize g = xmlDecl ++ renderXML (exportTree g)
      ∧ (ZipArchive.mk [ZipEntry.mk "geogebra.xml" (serialize g)]).entries.length = 1
      ∧ ((ZipArchive.mk [ZipEntry.mk "geogebra.xml" (serialize g)]).entries).map
          ZipEntry.name = ["geogebra.xml"] := by
  refine ⟨?_, rfl, rfl, rfl⟩
  simp [GeoGebra.save, writeFS, readFS, List.find?]

/-- Claim C9: two documents built with the same constructor arguments and
the same builder calls but with distinct freshly drawn UUIDs carry distinct
id attributes. -/
theorem C9_distinct_ids (app subApp u1 u2 : String) (calls : List BuilderCall)
    (h : u1 ≠ u2) :
    idOf (runCalls (GeoGebra.init app subApp u1) calls)
      ≠ idOf (runCalls (GeoGebra.init app subApp u2) calls) := by
  rw [idOf_runCalls_init, idOf_runCalls_init]
  exact fun he => h (Option.some.inj he)

/-- Witness for C9 at two concrete distinct UUID strings. -/
theorem C9_distinct_ids_witness :
    idOf (runCalls (GeoGebra.init "suite" "graphing" "uuid-a") [])
      ≠ idOf (runCalls (GeoGebra.init "suite" "graphing" "uuid-b") []) :=
  C9_distinct_ids "suite" "graphing" "uuid-a" "uuid-b" [] (by decide)

/-- Claim C10: the extension check is a case-sensitive exact suffix match:
"out.GGB" does not pass it, so `save` appends ".ggb" and writes at
"out.GGB.ggb". -/
theorem C10_extension_case_sensitive :
    pyEndsWith "out.GGB" ".ggb" = false
      ∧ resolveFilename "out.GGB" = "out.GGB.ggb"
      ∧ (((GeoGebra.init "suite" "graphing" "u").save [] "out.GGB").map Prod.fst)
        = ["out.GGB.ggb"] := by
  have h2 : resolveFilename "out.GGB" = "out.GGB.ggb" := by decide
  exact ⟨by decide, h2, by simp [GeoGebra.save, writeFS, h2]⟩
